import Mathlib

/-!
Shallow embedding of the XQQYT/EventBus library (C++17, header-only):
the bounded `ThreadQueue`, and the `EventBus` dispatcher
(`initEventBus`, `tryRegisterEvent`, `subscribe` in both overloads,
`subscribeSafe`, `publish`, `publishWithPriority`, `unsubscribe`),
together with the semantics of the zero-argument work items that
`publish` hands to the thread pool.

Machine integers: the C++ code uses `unsigned int` / `size_t` counters
that never approach their bounds in any behaviour relevant here, so they
are modelled as `Nat`; scoped enums backed by `int` (`ThreadModel`,
`TaskModel`, `ThreadPoolType`) are modelled as `Int` codes so that
out-of-range values (obtainable in C++ via `static_cast`) stay
representable, exactly as the source's `else` branches anticipate.
Thrown exceptions are modelled with `Except` / error fields.
-/

/-- Error kinds corresponding to the exception classes of EventBus.hpp and
the `std::runtime_error`s thrown by ThreadQueue.h. -/
inductive EvError where
  | notInitialized        -- EventBusNotInitializedException
  | configurationError    -- EventBusConfigurationException
  | eventNotRegistered    -- EventNotRegisteredException
  | taskModelMismatch     -- TaskModelMismatchException
  | queueFull             -- std::runtime_error "queue is full"
  | queueEmpty            -- std::runtime_error "task queue is empty"
deriving DecidableEq, Repr

/-! ### ThreadQueue (ThreadQueue.h)

`ThreadQueue<Args...>` stores pairs `(function, argument tuple)`; the
payload is opaque for the bounded-buffer claims, so tasks are
represented by an opaque `Nat` tag. -/

/-- State of a `ThreadQueue`: the FIFO `task_queue` plus the immutable
`capacity` set by the constructor. -/
structure ThreadQueue where
  task_queue : List Nat
  capacity : Nat
deriving DecidableEq, Repr

/-- `ThreadQueue::addTask`: throws "queue is full" when
`task_queue.size() >= capacity`, otherwise appends the task.
The check precedes the push, so a throwing call mutates nothing. -/
def ThreadQueue.addTask (q : ThreadQueue) (t : Nat) : Except EvError ThreadQueue :=
  if q.task_queue.length ≥ q.capacity then
    .error .queueFull
  else
    .ok { q with task_queue := q.task_queue ++ [t] }

/-- `ThreadQueue::getTask`: throws "task queue is empty" on an empty
queue, otherwise pops and returns the front task. -/
def ThreadQueue.getTask (q : ThreadQueue) : Except EvError (Nat × ThreadQueue) :=
  match q.task_queue with
  | [] => .error .queueEmpty
  | t :: rest => .ok (t, { q with task_queue := rest })

/-- An enqueue or dequeue request against a `ThreadQueue`. -/
inductive QOp where
  | add (t : Nat)
  | get
deriving DecidableEq, Repr

/-- Execute one queue operation; a thrown exception leaves the queue
state unchanged (both methods check before mutating). -/
def ThreadQueue.stepQ (q : ThreadQueue) : QOp → ThreadQueue
  | .add t =>
    match q.addTask t with
    | .ok q' => q'
    | .error _ => q
  | .get =>
    match q.getTask with
    | .ok (_, q') => q'
    | .error _ => q

/-- Execute a sequence of queue operations. -/
def ThreadQueue.runQ (q : ThreadQueue) : List QOp → ThreadQueue
  | [] => q
  | op :: rest => (q.stepQ op).runQ rest

/-! ### EventBus data model (EventBus.hpp) -/

/-- `ThreadModel` codes: `FIXED = 0`, `DYNAMIC = 1`, `UNDEFINED = -1`. -/
def ThreadModelFIXED : Int := 0

/-- `ThreadModel::DYNAMIC`. -/
def ThreadModelDYNAMIC : Int := 1

/-- `ThreadModel::UNDEFINED`, the default member initializer of
`EventBusConfig.thread_model`. -/
def ThreadModelUNDEFINED : Int := -1

/-- `TaskModel` codes: `NORMAL = 0`, `PRIORITY = 1` (unscoped values of
the `enum class TaskModel`). -/
def TaskModelNORMAL : Int := 0

/-- `TaskModel::PRIORITY`. -/
def TaskModelPRIORITY : Int := 1

/-- `ThreadPoolType` codes used by `initEventBus` when constructing the
pool: `NORMAL = 0`, `PRIORITY = 1`. -/
def ThreadPoolTypeNORMAL : Int := 0

/-- `ThreadPoolType::PRIORITY`. -/
def ThreadPoolTypePRIORITY : Int := 1

/-- `EventBusConfig`: `thread_model` defaults to `UNDEFINED`; the other
fields are uninitialized by the default constructor and set either by
aggregate/field assignment or by the validating 5-argument constructor. -/
structure EventBusConfig where
  thread_model : Int := ThreadModelUNDEFINED
  task_model : Int
  thread_min : Nat
  thread_max : Nat
  task_max : Nat
deriving DecidableEq, Repr

/-- `EventBusConfig::validate` (private, invoked only by the 5-argument
constructor): rejects `thread_min <= 0`, `thread_max <= 0`,
`thread_min > thread_max`, and `thread_model == UNDEFINED`, in that
order, each with an `EventBusConfigurationException`. -/
def EventBusConfig.validateErr (c : EventBusConfig) : Option EvError :=
  if c.thread_min ≤ 0 then some .configurationError
  else if c.thread_max ≤ 0 then some .configurationError
  else if c.thread_min > c.thread_max then some .configurationError
  else if c.thread_model = ThreadModelUNDEFINED then some .configurationError
  else none

/-- The validating 5-argument `EventBusConfig` constructor: builds the
value and calls `validate`, propagating its exception. -/
def EventBusConfig.mk5 (tm tsk : Int) (tmin tmax tskmax : Nat) :
    Except EvError EventBusConfig :=
  let c : EventBusConfig :=
    { thread_model := tm, task_model := tsk,
      thread_min := tmin, thread_max := tmax, task_max := tskmax }
  match c.validateErr with
  | some e => .error e
  | none => .ok c

/-- What the user handler does when it is finally invoked: it either
returns normally or throws. `stdExc` is an exception derived from
`std::exception`; `otherExc` is anything else. -/
inductive ExcKind where
  | stdExc
  | otherExc
deriving DecidableEq, Repr

/-- `CallbackWrapper { callback_id id; std::any callback; }`. The
`std::any` stores a `std::function<void(Sig...)>`; `sig` is the list of
type identities of `Sig...` (so `any_cast<std::function<void(A...)>>`
succeeds exactly when `sig` equals the identities of `A...`), and
`throwKind` is the behaviour of the wrapped user handler when called. -/
structure CallbackWrapper where
  id : Nat
  sig : List String
  throwKind : Option ExcKind
deriving DecidableEq, Repr

/-- Constructor arguments of the `ThreadPool<>` that `initEventBus`
builds (`thread_min, thread_max, task_max, type, use_manager`). -/
structure PoolParams where
  tmin : Nat
  tmax : Nat
  taskMax : Nat
  ptype : Int
  useManager : Bool
deriving DecidableEq, Repr

/-- The `EventBus` object state: the topic registry `callbacks_map`
(association list mirroring the `unordered_map`, with the per-topic
vector in insertion order), the shared `next_id` counter, `init_status`,
the `task_model` chosen at init, the owned pool (null before init), and
an allocation counter giving fresh identities to the shared argument
tuples built by `publish` (`next_handle`). -/
structure EventBus where
  callbacks_map : List (String × List CallbackWrapper) := []
  next_id : Nat := 0
  init_status : Bool := false
  task_model : Int := 0
  thread_pool : Option PoolParams := none
  next_handle : Nat := 0
deriving DecidableEq, Repr

/-- A freshly constructed `EventBus` (all defaults). -/
def EventBus.empty : EventBus := {}

/-- `EventBus::ensureInitialized`: throws
`EventBusNotInitializedException` when `init_status` is false. -/
def EventBus.ensureInitialized (bus : EventBus) : Except EvError Unit :=
  if bus.init_status then .ok () else .error .notInitialized

/-- `EventBus::initEventBus` (EventBus.hpp lines 285-339): builds the
pool according to `thread_model`/`task_model`; the `DYNAMIC` and `FIXED`
branches throw `EventBusConfigurationException` on an unrecognized task
model, but there is no `else` for any other thread model, so control
falls through to `init_status = true; task_model = config.task_model`
with the pool left untouched. `validate` is not called here. -/
def EventBus.initEventBus (bus : EventBus) (cfg : EventBusConfig) :
    Except EvError EventBus :=
  if cfg.thread_model = ThreadModelDYNAMIC then
    if cfg.task_model = TaskModelNORMAL then
      .ok { bus with
            thread_pool := some ⟨cfg.thread_min, cfg.thread_max, cfg.task_max,
                                 ThreadPoolTypeNORMAL, true⟩,
            init_status := true, task_model := cfg.task_model }
    else if cfg.task_model = TaskModelPRIORITY then
      .ok { bus with
            thread_pool := some ⟨cfg.thread_min, cfg.thread_max, cfg.task_max,
                                 ThreadPoolTypePRIORITY, true⟩,
            init_status := true, task_model := cfg.task_model }
    else
      .error .configurationError
  else if cfg.thread_model = ThreadModelFIXED then
    if cfg.task_model = TaskModelNORMAL then
      .ok { bus with
            thread_pool := some ⟨cfg.thread_min, cfg.thread_min, cfg.task_max,
                                 ThreadPoolTypeNORMAL, false⟩,
            init_status := true, task_model := cfg.task_model }
    else if cfg.task_model = TaskModelPRIORITY then
      .ok { bus with
            thread_pool := some ⟨cfg.thread_min, cfg.thread_min, cfg.task_max,
                                 ThreadPoolTypePRIORITY, false⟩,
            init_status := true, task_model := cfg.task_model }
    else
      .error .configurationError
  else
    .ok { bus with init_status := true, task_model := cfg.task_model }

/-- Key lookup in the registry association list, mirroring
`unordered_map::find` (keys are unique, so first match suffices). -/
def lookupEntry (name : String) :
    List (String × List CallbackWrapper) → Option (List CallbackWrapper)
  | [] => none
  | (k, v) :: rest => if name = k then some v else lookupEntry name rest

/-- `EventBus::tryRegisterEvent`: `ensureInitialized`, then
`try_emplace` — insert an empty topic entry if the key is absent
(the `reserve(3)` capacity hint is unobservable). -/
def EventBus.tryRegisterEvent (bus : EventBus) (name : String) :
    Except EvError EventBus :=
  if bus.init_status = false then .error .notInitialized
  else if (lookupEntry name bus.callbacks_map).isSome then .ok bus
  else .ok { bus with callbacks_map := bus.callbacks_map ++ [(name, [])] }

/-- `EventBus::subscribe` (the `std::function<void(Args...)>` overload,
EventBus.hpp lines 359-370): looks the topic up, throwing
`EventNotRegisteredException` when absent; on success allocates
`id = ++next_id` and appends a `CallbackWrapper` to the entry.
This overload performs no initialization check. -/
def EventBus.subscribeF (bus : EventBus) (name : String) (sig : List String)
    (tk : Option ExcKind) : Except EvError (EventBus × Nat) :=
  match lookupEntry name bus.callbacks_map with
  | none => .error .eventNotRegistered
  | some _ =>
    let i := bus.next_id + 1
    .ok ({ bus with
           next_id := i,
           callbacks_map :=
             bus.callbacks_map.map fun kv =>
               (kv.1, if kv.1 = name then kv.2 ++ [⟨i, sig, tk⟩] else kv.2) },
         i)

/-- `EventBus::subscribe` (the deduced-callback overload, lines
379-385): `ensureInitialized`, then delegates to the `std::function`
overload with the signature extracted by `function_traits`. -/
def EventBus.subscribeD (bus : EventBus) (name : String) (sig : List String)
    (tk : Option ExcKind) : Except EvError (EventBus × Nat) :=
  if bus.init_status = false then .error .notInitialized
  else bus.subscribeF name sig tk

/-- `EventBus::subscribeSafe` (lines 394-399): `tryRegisterEvent`
followed by `subscribe`. -/
def EventBus.subscribeSafe (bus : EventBus) (name : String) (sig : List String)
    (tk : Option ExcKind) : Except EvError (EventBus × Nat) :=
  match bus.tryRegisterEvent name with
  | .error e => .error e
  | .ok b => b.subscribeF name sig tk

/-- Remove the first wrapper whose `id` matches, mirroring
`find_if` + `erase` in `EventBus::unsubscribe`. -/
def eraseFirstId (i : Nat) : List CallbackWrapper → List CallbackWrapper
  | [] => []
  | w :: rest => if w.id = i then rest else w :: eraseFirstId i rest

/-- `EventBus::unsubscribe` (lines 619-636): `ensureInitialized`;
unknown topic returns `false`; otherwise erase the first wrapper with a
matching id and return `true`, or return `false` when no id matches. -/
def EventBus.unsubscribe (bus : EventBus) (name : String) (i : Nat) :
    Except EvError (EventBus × Bool) :=
  if bus.init_status = false then .error .notInitialized
  else
    match lookupEntry name bus.callbacks_map with
    | none => .ok (bus, false)
    | some ws =>
      if ws.any (fun w => w.id = i) then
        .ok ({ bus with
               callbacks_map :=
                 bus.callbacks_map.map fun kv =>
                   (kv.1, if kv.1 = name then eraseFirstId i kv.2 else kv.2) },
             true)
      else .ok (bus, false)

/-- `EventBus::isEventRegistered`. -/
def EventBus.isEventRegistered (bus : EventBus) (name : String) : Bool :=
  (lookupEntry name bus.callbacks_map).isSome

/-! ### Work items and publish -/

/-- A catch clause of the try/catch inside a work-item lambda:
`catch (const std::exception&)` or `catch (...)`. -/
inductive CatchClause where
  | catchStd
  | catchAll
deriving DecidableEq, Repr

/-- Whether a clause catches an exception of the given kind. -/
def CatchClause.handles : CatchClause → ExcKind → Bool
  | .catchAll, _ => true
  | .catchStd, .stdExc => true
  | .catchStd, .otherExc => false

/-- The zero-argument work item a `publish` hands to
`thread_pool->addTask`: the captured wrapper data, the publish's
instantiated argument-type list `pubSig` (empty for the
`sizeof...(Args) == 0` branch), the identity of the shared
`args_tuple` handle captured by value (`none` in the zero-argument
branch, which builds no tuple), the lambda's catch clauses in order,
and the priority argument when submitted via `publishWithPriority`. -/
structure WorkItem where
  wid : Nat
  wsig : List String
  throwKind : Option ExcKind
  pubSig : List String
  tupleHandle : Option Nat
  catches : List CatchClause
  priority : Option Int
deriving DecidableEq, Repr

/-- What happened inside a work item's try block: the typed
`any_cast<std::function<void(Args...)>>` succeeded and the handler was
applied to the shared tuple; the fallback
`any_cast<std::function<void()>>` succeeded and the handler ran with no
arguments; or neither cast matched and nothing was invoked. -/
inductive DispatchEvent where
  | invokedTyped
  | invokedZero
  | skipped
deriving DecidableEq, Repr

/-- Execute a work item. The first component reports which dispatch
path the try block took; the second is the exception, if any, that
escaped the lambda after its catch clauses ran. In the non-empty
branch the body tries the exact-signature cast first, then the
zero-argument fallback; in the zero-argument branch only the
zero-argument cast is tried. A failed `any_cast` on a pointer yields
`nullptr`, not a throw, so a skipped handler raises nothing. -/
def runWorkItem (w : WorkItem) : DispatchEvent × Option ExcKind :=
  let body : DispatchEvent × Option ExcKind :=
    if w.pubSig = [] then
      if w.wsig = [] then (.invokedZero, w.throwKind) else (.skipped, none)
    else
      if w.wsig = w.pubSig then (.invokedTyped, w.throwKind)
      else if w.wsig = [] then (.invokedZero, w.throwKind)
      else (.skipped, none)
  match body with
  | (ev, none) => (ev, none)
  | (ev, some e) =>
    if w.catches.any (fun c => c.handles e) then (ev, none) else (ev, some e)

/-- Work item built by the non-empty branch of `publish` (lines
472-499): captures the shared tuple handle; catches
`const std::exception&` then `...`. -/
def mkNormalItem (pubSig : List String) (h : Nat) (w : CallbackWrapper) : WorkItem :=
  { wid := w.id, wsig := w.sig, throwKind := w.throwKind, pubSig := pubSig,
    tupleHandle := some h, catches := [.catchStd, .catchAll], priority := none }

/-- Work item built by the zero-argument branch of `publish` (lines
438-455): no tuple; a single `catch (...)`. -/
def mkNormalItemZero (w : CallbackWrapper) : WorkItem :=
  { wid := w.id, wsig := w.sig, throwKind := w.throwKind, pubSig := [],
    tupleHandle := none, catches := [.catchAll], priority := none }

/-- Work item built by the non-empty branch of `publishWithPriority`
(lines 573-595): shared tuple handle, priority, single `catch (...)`. -/
def mkPriorityItem (p : Int) (pubSig : List String) (h : Nat)
    (w : CallbackWrapper) : WorkItem :=
  { wid := w.id, wsig := w.sig, throwKind := w.throwKind, pubSig := pubSig,
    tupleHandle := some h, catches := [.catchAll], priority := some p }

/-- Work item built by the zero-argument branch of
`publishWithPriority` (lines 538-555). -/
def mkPriorityItemZero (p : Int) (w : CallbackWrapper) : WorkItem :=
  { wid := w.id, wsig := w.sig, throwKind := w.throwKind, pubSig := [],
    tupleHandle := none, catches := [.catchAll], priority := some p }

/-- Result of a publish call: the work items submitted to the pool by
`thread_pool->addTask`, in submission order (items submitted before a
throw stay submitted); how many shared argument tuples were allocated
by `std::make_shared`; and the exception that left the call, if any. -/
structure PubOut where
  submitted : List WorkItem
  tupleAllocs : Nat
  error : Option EvError
deriving DecidableEq, Repr

/-- The per-subscriber loop of `publish`: for each wrapper, `NORMAL`
task model submits a work item, `PRIORITY` throws
`TaskModelMismatchException` (abandoning the rest of the loop), and any
other task-model value falls through both tests doing nothing. -/
def fanoutNormal (tm : Int) (mk : CallbackWrapper → WorkItem) :
    List CallbackWrapper → List WorkItem × Option EvError
  | [] => ([], none)
  | w :: rest =>
    if tm = TaskModelNORMAL then
      let out := fanoutNormal tm mk rest
      (mk w :: out.1, out.2)
    else if tm = TaskModelPRIORITY then ([], some .taskModelMismatch)
    else fanoutNormal tm mk rest

/-- The per-subscriber loop of `publishWithPriority`: `NORMAL` throws
`TaskModelMismatchException`, `PRIORITY` submits, anything else does
nothing. -/
def fanoutPriority (tm : Int) (mk : CallbackWrapper → WorkItem) :
    List CallbackWrapper → List WorkItem × Option EvError
  | [] => ([], none)
  | w :: rest =>
    if tm = TaskModelNORMAL then ([], some .taskModelMismatch)
    else if tm = TaskModelPRIORITY then
      let out := fanoutPriority tm mk rest
      (mk w :: out.1, out.2)
    else fanoutPriority tm mk rest

/-- `EventBus::publish` (lines 422-508). `pubSig` is the list of type
identities of the instantiated `Args...`; the `sizeof...(Args) == 0`
compile-time branch corresponds to `pubSig = []`. The non-empty branch
allocates the shared argument tuple (identity `bus.next_handle`) once,
before the loop, whether or not any subscriber exists. -/
def EventBus.publish (bus : EventBus) (name : String) (pubSig : List String) :
    PubOut :=
  if bus.init_status = false then ⟨[], 0, some .notInitialized⟩
  else
    match lookupEntry name bus.callbacks_map with
    | none => ⟨[], 0, some .eventNotRegistered⟩
    | some ws =>
      if pubSig = [] then
        let out := fanoutNormal bus.task_model mkNormalItemZero ws
        ⟨out.1, 0, out.2⟩
      else
        let out := fanoutNormal bus.task_model
          (mkNormalItem pubSig bus.next_handle) ws
        ⟨out.1, 1, out.2⟩

/-- `EventBus::publishWithPriority` (lines 517-599), analogous. -/
def EventBus.publishWithPriority (bus : EventBus) (p : Int) (name : String)
    (pubSig : List String) : PubOut :=
  if bus.init_status = false then ⟨[], 0, some .notInitialized⟩
  else
    match lookupEntry name bus.callbacks_map with
    | none => ⟨[], 0, some .eventNotRegistered⟩
    | some ws =>
      if pubSig = [] then
        let out := fanoutPriority bus.task_model (mkPriorityItemZero p) ws
        ⟨out.1, 0, out.2⟩
      else
        let out := fanoutPriority bus.task_model
          (mkPriorityItem p pubSig bus.next_handle) ws
        ⟨out.1, 1, out.2⟩

/-! ### Operation sequences over one bus (for the subscription-ID claim) -/

/-- A registry-mutating request against one bus. -/
inductive SubOp where
  | register (name : String)
  | subscribeF (name : String) (sig : List String) (tk : Option ExcKind)
  | subscribeD (name : String) (sig : List String) (tk : Option ExcKind)
  | subSafe (name : String) (sig : List String) (tk : Option ExcKind)
  | unsub (name : String) (id : Nat)
deriving DecidableEq, Repr

/-- Execute one request: the new bus state plus the subscription ID the
call returned, when it returned one (a thrown exception leaves the bus
as the partially-updated state the call produced; for these operations
a throw happens before any mutation, so the old state is kept). -/
def EventBus.stepOp (bus : EventBus) : SubOp → EventBus × Option Nat
  | .register n =>
    match bus.tryRegisterEvent n with
    | .ok b => (b, none)
    | .error _ => (bus, none)
  | .subscribeF n s k =>
    match bus.subscribeF n s k with
    | .ok (b, i) => (b, some i)
    | .error _ => (bus, none)
  | .subscribeD n s k =>
    match bus.subscribeD n s k with
    | .ok (b, i) => (b, some i)
    | .error _ => (bus, none)
  | .subSafe n s k =>
    match bus.subscribeSafe n s k with
    | .ok (b, i) => (b, some i)
    | .error _ => (bus, none)
  | .unsub n i =>
    match bus.unsubscribe n i with
    | .ok (b, _) => (b, none)
    | .error _ => (bus, none)

/-- Execute a sequence of requests, collecting the issued subscription
IDs in call order. -/
def EventBus.runOps (bus : EventBus) : List SubOp → EventBus × List Nat
  | [] => (bus, [])
  | op :: rest =>
    let st := bus.stepOp op
    let out := st.1.runOps rest
    (out.1, st.2.toList ++ out.2)

/-! ### Helper lemmas -/

/-- On a `NORMAL` task model the publish loop submits one work item per
wrapper, in order, and throws nothing. -/
theorem fanoutNormal_normal (mk : CallbackWrapper → WorkItem)
    (ws : List CallbackWrapper) :
    fanoutNormal TaskModelNORMAL mk ws = (ws.map mk, none) := by
  induction ws with
  | nil => rfl
  | cons w rest ih => simp [fanoutNormal, ih]

/-- On a `PRIORITY` task model the publish loop throws
`TaskModelMismatchException` at the first wrapper. -/
theorem fanoutNormal_priority (mk : CallbackWrapper → WorkItem)
    (w : CallbackWrapper) (rest : List CallbackWrapper) :
    fanoutNormal TaskModelPRIORITY mk (w :: rest) =
      ([], some .taskModelMismatch) := by
  simp [fanoutNormal, TaskModelPRIORITY, TaskModelNORMAL]

/-- On a `PRIORITY` task model the priority-publish loop submits one
work item per wrapper, in order, and throws nothing. -/
theorem fanoutPriority_priority (mk : CallbackWrapper → WorkItem)
    (ws : List CallbackWrapper) :
    fanoutPriority TaskModelPRIORITY mk ws = (ws.map mk, none) := by
  induction ws with
  | nil => rfl
  | cons w rest ih =>
    simp only [fanoutPriority]
    rw [if_neg (by decide : ¬(TaskModelPRIORITY = TaskModelNORMAL))]
    simp [ih]

/-- On a `NORMAL` task model the priority-publish loop throws
`TaskModelMismatchException` at the first wrapper. -/
theorem fanoutPriority_normal (mk : CallbackWrapper → WorkItem)
    (w : CallbackWrapper) (rest : List CallbackWrapper) :
    fanoutPriority TaskModelNORMAL mk (w :: rest) =
      ([], some .taskModelMismatch) := by
  simp [fanoutPriority]

/-- Every work item emitted by the publish loop is the image of one of
the topic entry's wrappers. -/
theorem fanoutNormal_mem (tm : Int) (mk : CallbackWrapper → WorkItem)
    (ws : List CallbackWrapper) (w : WorkItem) :
    w ∈ (fanoutNormal tm mk ws).1 → ∃ wr ∈ ws, w = mk wr := by
  induction ws with
  | nil => intro hw; simp [fanoutNormal] at hw
  | cons x rest ih =>
    intro hw
    by_cases h0 : tm = TaskModelNORMAL
    · subst h0
      have hred : (fanoutNormal TaskModelNORMAL mk (x :: rest)).1
          = mk x :: (fanoutNormal TaskModelNORMAL mk rest).1 := by
        simp [fanoutNormal]
      rw [hred, List.mem_cons] at hw
      rcases hw with h | h
      · exact ⟨x, List.mem_cons_self x rest, h⟩
      · obtain ⟨wr, hwr, he⟩ := ih h
        exact ⟨wr, List.mem_cons_of_mem x hwr, he⟩
    · by_cases h1 : tm = TaskModelPRIORITY
      · subst h1
        simp [fanoutNormal, TaskModelPRIORITY, TaskModelNORMAL] at hw
      · have hred : fanoutNormal tm mk (x :: rest) = fanoutNormal tm mk rest := by
          simp only [fanoutNormal, if_neg h0, if_neg h1]
        rw [hred] at hw
        obtain ⟨wr, hwr, he⟩ := ih hw
        exact ⟨wr, List.mem_cons_of_mem x hwr, he⟩

/-- Every work item emitted by the priority-publish loop is the image
of one of the topic entry's wrappers. -/
theorem fanoutPriority_mem (tm : Int) (mk : CallbackWrapper → WorkItem)
    (ws : List CallbackWrapper) (w : WorkItem) :
    w ∈ (fanoutPriority tm mk ws).1 → ∃ wr ∈ ws, w = mk wr := by
  induction ws with
  | nil => intro hw; simp [fanoutPriority] at hw
  | cons x rest ih =>
    intro hw
    by_cases h0 : tm = TaskModelNORMAL
    · subst h0
      simp [fanoutPriority] at hw
    · by_cases h1 : tm = TaskModelPRIORITY
      · subst h1
        have hred : (fanoutPriority TaskModelPRIORITY mk (x :: rest)).1
            = mk x :: (fanoutPriority TaskModelPRIORITY mk rest).1 := by
          simp only [fanoutPriority]
          rw [if_neg (by decide : ¬(TaskModelPRIORITY = TaskModelNORMAL))]
          simp
        rw [hred, List.mem_cons] at hw
        rcases hw with h | h
        · exact ⟨x, List.mem_cons_self x rest, h⟩
        · obtain ⟨wr, hwr, he⟩ := ih h
          exact ⟨wr, List.mem_cons_of_mem x hwr, he⟩
      · have hred : fanoutPriority tm mk (x :: rest) = fanoutPriority tm mk rest := by
          simp only [fanoutPriority, if_neg h0, if_neg h1]
        rw [hred] at hw
        obtain ⟨wr, hwr, he⟩ := ih hw
        exact ⟨wr, List.mem_cons_of_mem x hwr, he⟩

/-- A work item whose catch clauses include `catch (...)` lets no
exception escape. -/
theorem runWorkItem_catchAll (w : WorkItem)
    (h : CatchClause.catchAll ∈ w.catches) : (runWorkItem w).2 = none := by
  unfold runWorkItem
  have hany : ∀ e : ExcKind, w.catches.any (fun c => c.handles e) = true :=
    fun e => List.any_eq_true.mpr ⟨.catchAll, h, rfl⟩
  rcases hsig : (if w.pubSig = [] then
      if w.wsig = [] then ((DispatchEvent.invokedZero : DispatchEvent), w.throwKind)
      else ((DispatchEvent.skipped : DispatchEvent), (none : Option ExcKind))
    else
      if w.wsig = w.pubSig then ((DispatchEvent.invokedTyped : DispatchEvent), w.throwKind)
      else if w.wsig = [] then ((DispatchEvent.invokedZero : DispatchEvent), w.throwKind)
      else ((DispatchEvent.skipped : DispatchEvent), (none : Option ExcKind))) with
    ⟨ev, exc⟩
  cases exc with
  | none => simp [hsig]
  | some e => simp [hsig, hany e]

/-- Lookup after the map-based entry update used by `subscribeF` and
`unsubscribe`: the named entry is transformed by `f`, all others are
untouched. -/
theorem lookup_map_entry (f : List CallbackWrapper → List CallbackWrapper)
    (name n' : String) (m : List (String × List CallbackWrapper)) :
    lookupEntry n' (m.map fun kv => (kv.1, if kv.1 = name then f kv.2 else kv.2)) =
      if n' = name then (lookupEntry n' m).map f else lookupEntry n' m := by
  induction m with
  | nil => by_cases h : n' = name <;> simp [lookupEntry, h]
  | cons kv rest ih =>
    obtain ⟨k, v⟩ := kv
    by_cases hk : k = name
    · subst hk
      by_cases hn : n' = k
      · subst hn
        simp [lookupEntry, ih]
      · simp [lookupEntry, hn, ih]
    · by_cases hn : n' = k
      · subst hn
        simp [lookupEntry, hk, ih]
      · simp [lookupEntry, hk, hn, ih]

/-- Erasing a present id removes exactly one record. -/
theorem eraseFirstId_length (i : Nat) (ws : List CallbackWrapper)
    (h : ws.any (fun w => w.id = i) = true) :
    (eraseFirstId i ws).length + 1 = ws.length := by
  induction ws with
  | nil => simp at h
  | cons w rest ih =>
    by_cases hw : w.id = i
    · simp [eraseFirstId, hw]
    · have h' : rest.any (fun w => w.id = i) = true := by
        simp only [List.any_cons, Bool.or_eq_true, decide_eq_true_eq] at h
        rcases h with h | h
        · exact absurd h hw
        · simpa using h
      have hlen := ih h'
      simp only [eraseFirstId, if_neg hw, List.length_cons]
      omega

/-- Erasing a present id splits the entry around the first matching
record: everything before it and everything after it survive
unchanged. -/
theorem eraseFirstId_split (i : Nat) (ws : List CallbackWrapper)
    (h : ∃ w ∈ ws, w.id = i) :
    ∃ l1 wrec l2, ws = l1 ++ wrec :: l2 ∧ wrec.id = i ∧
      (∀ w ∈ l1, w.id ≠ i) ∧ eraseFirstId i ws = l1 ++ l2 := by
  induction ws with
  | nil => simp at h
  | cons w rest ih =>
    by_cases hid : w.id = i
    · exact ⟨[], w, rest, rfl, hid, by simp, by simp [eraseFirstId, hid]⟩
    · have h' : ∃ x ∈ rest, x.id = i := by
        rcases h with ⟨x, hx, hxi⟩
        rcases List.mem_cons.mp hx with heq | hx'
        · exact absurd (heq ▸ hxi) hid
        · exact ⟨x, hx', hxi⟩
      obtain ⟨l1, wrec, l2, heq, hwi, hl1, herase⟩ := ih h'
      refine ⟨w :: l1, wrec, l2, by simp [heq], hwi, ?_, ?_⟩
      · intro x hx
        rcases List.mem_cons.mp hx with heq' | hx'
        · exact heq' ▸ hid
        · exact hl1 x hx'
      · simp [eraseFirstId, hid, herase]

/-- Unfolding of `publish` on an initialized bus with a registered
topic. -/
theorem publish_eq (bus : EventBus) (name : String) (pubSig : List String)
    (ws : List CallbackWrapper) (hinit : bus.init_status = true)
    (hlook : lookupEntry name bus.callbacks_map = some ws) :
    bus.publish name pubSig =
      if pubSig = [] then
        ⟨(fanoutNormal bus.task_model mkNormalItemZero ws).1, 0,
         (fanoutNormal bus.task_model mkNormalItemZero ws).2⟩
      else
        ⟨(fanoutNormal bus.task_model (mkNormalItem pubSig bus.next_handle) ws).1, 1,
         (fanoutNormal bus.task_model (mkNormalItem pubSig bus.next_handle) ws).2⟩ := by
  unfold EventBus.publish
  rw [hinit, hlook]
  simp

/-- Unfolding of `publishWithPriority` on an initialized bus with a
registered topic. -/
theorem publishWithPriority_eq (bus : EventBus) (p : Int) (name : String)
    (pubSig : List String) (ws : List CallbackWrapper)
    (hinit : bus.init_status = true)
    (hlook : lookupEntry name bus.callbacks_map = some ws) :
    bus.publishWithPriority p name pubSig =
      if pubSig = [] then
        ⟨(fanoutPriority bus.task_model (mkPriorityItemZero p) ws).1, 0,
         (fanoutPriority bus.task_model (mkPriorityItemZero p) ws).2⟩
      else
        ⟨(fanoutPriority bus.task_model (mkPriorityItem p pubSig bus.next_handle) ws).1, 1,
         (fanoutPriority bus.task_model (mkPriorityItem p pubSig bus.next_handle) ws).2⟩ := by
  unfold EventBus.publishWithPriority
  rw [hinit, hlook]
  simp

/-! ### Concrete fixture states used by witnesses and counterexamples -/

/-- Handler records of the fixture topic "t": a matching `(int)`
handler, a zero-argument handler that throws, and a `(str)` handler. -/
def wsW : List CallbackWrapper :=
  [⟨1, ["int"], none⟩, ⟨2, [], some .stdExc⟩, ⟨3, ["str"], none⟩]

/-- An initialized NORMAL-task-model bus with topic "t" holding the
three fixture records and topic "u" empty. -/
def busW : EventBus :=
  { callbacks_map := [("t", wsW), ("u", [])],
    next_id := 3, init_status := true, task_model := TaskModelNORMAL,
    thread_pool := some ⟨2, 4, 16, ThreadPoolTypeNORMAL, true⟩, next_handle := 5 }

/-- An initialized PRIORITY-task-model bus with topic "t" holding one
record. -/
def busWP : EventBus :=
  { callbacks_map := [("t", [⟨1, ["int"], none⟩])],
    next_id := 1, init_status := true, task_model := TaskModelPRIORITY,
    thread_pool := some ⟨1, 2, 8, ThreadPoolTypePRIORITY, true⟩, next_handle := 0 }

/-- An initialized NORMAL-task-model bus whose registered topic "t" has
no subscribers. -/
def busE : EventBus :=
  { callbacks_map := [("t", [])], next_id := 0, init_status := true,
    task_model := TaskModelNORMAL, thread_pool := some ⟨1, 1, 8, ThreadPoolTypeNORMAL, false⟩,
    next_handle := 0 }

/-- An initialized PRIORITY-task-model bus whose registered topic "t"
has no subscribers. -/
def busEP : EventBus :=
  { callbacks_map := [("t", [])], next_id := 0, init_status := true,
    task_model := TaskModelPRIORITY, thread_pool := some ⟨1, 1, 8, ThreadPoolTypePRIORITY, false⟩,
    next_handle := 0 }

/-! ### Claim C1 -/

/-- C1: publishing a non-empty argument list to a registered topic with
k handler records on a NORMAL-discipline initialized bus submits
exactly k zero-argument work items, one per record in the entry's
insertion order, and the arguments are packed exactly once into a
single shared tuple whose handle all k work items share. -/
theorem C1_publish_fanout (bus : EventBus) (name : String) (pubSig : List String)
    (ws : List CallbackWrapper)
    (hinit : bus.init_status = true) (htm : bus.task_model = TaskModelNORMAL)
    (hlook : lookupEntry name bus.callbacks_map = some ws) (hne : pubSig ≠ []) :
    (bus.publish name pubSig).error = none ∧
    (bus.publish name pubSig).submitted = ws.map (mkNormalItem pubSig bus.next_handle) ∧
    (bus.publish name pubSig).submitted.length = ws.length ∧
    (bus.publish name pubSig).submitted.map WorkItem.wid = ws.map CallbackWrapper.id ∧
    (bus.publish name pubSig).tupleAllocs = 1 ∧
    ∀ w ∈ (bus.publish name pubSig).submitted, w.tupleHandle = some bus.next_handle := by
  have heq := publish_eq bus name pubSig ws hinit hlook
  rw [if_neg hne] at heq
  rw [heq, htm, fanoutNormal_normal]
  refine ⟨rfl, rfl, by simp, ?_, rfl, ?_⟩
  · simp [List.map_map, mkNormalItem, Function.comp]
  · intro w hw
    simp only [List.mem_map] at hw
    obtain ⟨wr, _, rfl⟩ := hw
    rfl

/-- Witness for C1 at the fixture bus: the three-record topic yields
three work items and one shared tuple. -/
theorem C1_publish_fanout_witness :
    (busW.publish "t" ["int"]).submitted.length = wsW.length ∧
    (busW.publish "t" ["int"]).tupleAllocs = 1 ∧
    (busW.publish "t" ["int"]).error = none := by
  have h := C1_publish_fanout busW "t" ["int"] wsW rfl rfl rfl (by decide)
  exact ⟨h.2.2.1, h.2.2.2.2.1, h.1⟩

/-! ### Claim C2 -/

/-- C2: under a non-empty publish on a NORMAL initialized bus, a
handler whose stored signature matches neither the published types nor
the zero-argument fallback is skipped without any error, the mismatch
does not stop fan-out (still one work item per record), and
zero-argument handlers are invoked regardless of the tuple payload. -/
theorem C2_signature_mismatch (bus : EventBus) (name : String)
    (pubSig : List String) (ws : List CallbackWrapper)
    (hinit : bus.init_status = true) (htm : bus.task_model = TaskModelNORMAL)
    (hlook : lookupEntry name bus.callbacks_map = some ws) (hne : pubSig ≠ []) :
    (bus.publish name pubSig).error = none ∧
    (bus.publish name pubSig).submitted.length = ws.length ∧
    ∀ w ∈ (bus.publish name pubSig).submitted,
      (w.wsig ≠ pubSig → w.wsig ≠ [] → runWorkItem w = (.skipped, none)) ∧
      (w.wsig = [] → (runWorkItem w).1 = .invokedZero) := by
  have heq := publish_eq bus name pubSig ws hinit hlook
  rw [if_neg hne] at heq
  rw [heq, htm, fanoutNormal_normal]
  refine ⟨rfl, by simp, ?_⟩
  intro w hw
  simp only [List.mem_map] at hw
  obtain ⟨wr, _, rfl⟩ := hw
  constructor
  · intro hns hnz
    simp only [mkNormalItem] at hns hnz
    unfold runWorkItem
    simp only [mkNormalItem]
    rw [if_neg hne, if_neg hns, if_neg hnz]
  · intro hz
    simp only [mkNormalItem] at hz
    have hsp : wr.sig ≠ pubSig := fun hc => hne (hc ▸ hz)
    unfold runWorkItem
    simp only [mkNormalItem]
    rw [if_neg hne, if_neg hsp, if_pos hz]
    rcases wr.throwKind with _ | e
    · rfl
    · cases e <;> rfl

/-- Witness for C2 at the fixture bus: the `(str)` handler is skipped,
the zero-argument handler still runs. -/
theorem C2_signature_mismatch_witness :
    runWorkItem (mkNormalItem ["int"] 5 ⟨3, ["str"], none⟩) = (.skipped, none) ∧
    (runWorkItem (mkNormalItem ["int"] 5 ⟨2, [], some .stdExc⟩)).1 = .invokedZero := by
  have h := C2_signature_mismatch busW "t" ["int"] wsW rfl rfl rfl (by decide)
  refine ⟨(h.2.2 (mkNormalItem ["int"] 5 ⟨3, ["str"], none⟩) (by decide)).1 (by decide) (by decide),
         (h.2.2 (mkNormalItem ["int"] 5 ⟨2, [], some .stdExc⟩) (by decide)).2 (by decide)⟩

/-! ### Claim C3 -/

/-- Every work item submitted by `publish` carries a `catch (...)`
clause. -/
theorem publish_submitted_catchAll (bus : EventBus) (name : String)
    (pubSig : List String) (w : WorkItem)
    (hw : w ∈ (bus.publish name pubSig).submitted) :
    CatchClause.catchAll ∈ w.catches := by
  by_cases hinit : bus.init_status = false
  · have hpub : bus.publish name pubSig = ⟨[], 0, some .notInitialized⟩ := by
      unfold EventBus.publish
      rw [if_pos hinit]
    rw [hpub] at hw
    simp at hw
  · have hinit' : bus.init_status = true := by simpa using hinit
    cases hlook : lookupEntry name bus.callbacks_map with
    | none =>
      have hpub : bus.publish name pubSig = ⟨[], 0, some .eventNotRegistered⟩ := by
        unfold EventBus.publish
        rw [if_neg hinit, hlook]
      rw [hpub] at hw
      simp at hw
    | some ws =>
      have heq := publish_eq bus name pubSig ws hinit' hlook
      by_cases hne : pubSig = []
      · rw [if_pos hne] at heq
        rw [heq] at hw
        obtain ⟨wr, _, rfl⟩ := fanoutNormal_mem _ _ _ _ hw
        simp [mkNormalItemZero]
      · rw [if_neg hne] at heq
        rw [heq] at hw
        obtain ⟨wr, _, rfl⟩ := fanoutNormal_mem _ _ _ _ hw
        simp [mkNormalItem]

/-- Every work item submitted by `publishWithPriority` carries a
`catch (...)` clause. -/
theorem pubWP_submitted_catchAll (bus : EventBus) (p : Int) (name : String)
    (pubSig : List String) (w : WorkItem)
    (hw : w ∈ (bus.publishWithPriority p name pubSig).submitted) :
    CatchClause.catchAll ∈ w.catches := by
  by_cases hinit : bus.init_status = false
  · have hpub : bus.publishWithPriority p name pubSig = ⟨[], 0, some .notInitialized⟩ := by
      unfold EventBus.publishWithPriority
      rw [if_pos hinit]
    rw [hpub] at hw
    simp at hw
  · have hinit' : bus.init_status = true := by simpa using hinit
    cases hlook : lookupEntry name bus.callbacks_map with
    | none =>
      have hpub : bus.publishWithPriority p name pubSig = ⟨[], 0, some .eventNotRegistered⟩ := by
        unfold EventBus.publishWithPriority
        rw [if_neg hinit, hlook]
      rw [hpub] at hw
      simp at hw
    | some ws =>
      have heq := publishWithPriority_eq bus p name pubSig ws hinit' hlook
      by_cases hne : pubSig = []
      · rw [if_pos hne] at heq
        rw [heq] at hw
        obtain ⟨wr, _, rfl⟩ := fanoutPriority_mem _ _ _ _ hw
        simp [mkPriorityItemZero]
      · rw [if_neg hne] at heq
        rw [heq] at hw
        obtain ⟨wr, _, rfl⟩ := fanoutPriority_mem _ _ _ _ hw
        simp [mkPriorityItem]

/-- C3: executing any work item constructed by `publish` or
`publishWithPriority` lets no exception escape, even when the user
handler throws: the catch clauses of the lambda cover every exception
kind, so the surrounding dispatch never observes an error. -/
theorem C3_no_exception_escape (bus : EventBus) (name : String)
    (pubSig : List String) (p : Int) (w : WorkItem)
    (hw : w ∈ (bus.publish name pubSig).submitted ∨
          w ∈ (bus.publishWithPriority p name pubSig).submitted) :
    (runWorkItem w).2 = none := by
  rcases hw with hw | hw
  · exact runWorkItem_catchAll w (publish_submitted_catchAll bus name pubSig w hw)
  · exact runWorkItem_catchAll w (pubWP_submitted_catchAll bus p name pubSig w hw)

/-- Witness for C3: the fixture's zero-argument handler throws a
`std::exception`, yet its work item escapes nothing. -/
theorem C3_no_exception_escape_witness :
    (runWorkItem (mkNormalItem ["int"] 5 ⟨2, [], some .stdExc⟩)).2 = none :=
  C3_no_exception_escape busW "t" ["int"] 0 _ (Or.inl (by decide))

/-! ### Claim C10 -/

/-- C10: with a registered topic whose entry is empty, `publish` on a
PRIORITY-task-model bus and `publishWithPriority` on a
NORMAL-task-model bus both return silently — no error and no work item
— because the discipline check sits inside the per-subscriber loop. -/
theorem C10_empty_topic_noop (busP busN : EventBus) (p : Int) (name : String)
    (pubSig : List String)
    (hP1 : busP.init_status = true) (_hP2 : busP.task_model = TaskModelPRIORITY)
    (hP3 : lookupEntry name busP.callbacks_map = some [])
    (hN1 : busN.init_status = true) (_hN2 : busN.task_model = TaskModelNORMAL)
    (hN3 : lookupEntry name busN.callbacks_map = some []) :
    (busP.publish name pubSig).error = none ∧
    (busP.publish name pubSig).submitted = [] ∧
    (busN.publishWithPriority p name pubSig).error = none ∧
    (busN.publishWithPriority p name pubSig).submitted = [] := by
  have h1 := publish_eq busP name pubSig [] hP1 hP3
  have h2 := publishWithPriority_eq busN p name pubSig [] hN1 hN3
  by_cases hne : pubSig = []
  · rw [if_pos hne] at h1 h2
    rw [h1, h2]
    exact ⟨rfl, rfl, rfl, rfl⟩
  · rw [if_neg hne] at h1 h2
    rw [h1, h2]
    exact ⟨rfl, rfl, rfl, rfl⟩

/-- Witness for C10 at the empty-topic fixtures. -/
theorem C10_empty_topic_noop_witness :
    (busEP.publish "t" ["int"]).error = none ∧
    (busEP.publish "t" ["int"]).submitted = [] ∧
    (busE.publishWithPriority 0 "t" ["int"]).error = none ∧
    (busE.publishWithPriority 0 "t" ["int"]).submitted = [] :=
  C10_empty_topic_noop busEP busE 0 "t" ["int"] rfl rfl (by decide) rfl rfl (by decide)

/-! ### Claim C4 -/

/-- C4 counterexample: on an initialized NORMAL bus whose registered
topic "t" has zero handler records, `publishWithPriority` raises no
error at all — refuting the claim that it fails with
`TaskModelMismatchException` for every registered topic. -/
theorem C4_counterexample :
    busE.init_status = true ∧ busE.task_model = TaskModelNORMAL ∧
    lookupEntry "t" busE.callbacks_map = some [] ∧
    (busE.publishWithPriority 0 "t" ["int"]).error = none ∧
    (busE.publishWithPriority 0 "t" ["int"]).submitted = [] := by
  exact ⟨rfl, rfl, by decide, by decide, by decide⟩

/-- C4 amended: on an initialized bus, for a registered topic holding
at least one handler record, `publishWithPriority` on a
NORMAL-task-model bus throws `TaskModelMismatchException` and `publish`
on a PRIORITY-task-model bus throws the same; in both cases no work
item is submitted. -/
theorem C4_discipline_mismatch (busN busP : EventBus) (p : Int) (name : String)
    (pubSig : List String) (wsN wsP : List CallbackWrapper)
    (hN1 : busN.init_status = true) (hN2 : busN.task_model = TaskModelNORMAL)
    (hN3 : lookupEntry name busN.callbacks_map = some wsN) (hN4 : wsN ≠ [])
    (hP1 : busP.init_status = true) (hP2 : busP.task_model = TaskModelPRIORITY)
    (hP3 : lookupEntry name busP.callbacks_map = some wsP) (hP4 : wsP ≠ []) :
    (busN.publishWithPriority p name pubSig).error = some .taskModelMismatch ∧
    (busN.publishWithPriority p name pubSig).submitted = [] ∧
    (busP.publish name pubSig).error = some .taskModelMismatch ∧
    (busP.publish name pubSig).submitted = [] := by
  obtain ⟨wN, restN, rfl⟩ : ∃ w r, wsN = w :: r := by
    cases wsN with
    | nil => exact absurd rfl hN4
    | cons a b => exact ⟨a, b, rfl⟩
  obtain ⟨wP, restP, rfl⟩ : ∃ w r, wsP = w :: r := by
    cases wsP with
    | nil => exact absurd rfl hP4
    | cons a b => exact ⟨a, b, rfl⟩
  have h1 := publishWithPriority_eq busN p name pubSig _ hN1 hN3
  have h2 := publish_eq busP name pubSig _ hP1 hP3
  by_cases hne : pubSig = []
  · rw [if_pos hne] at h1 h2
    rw [h1, h2, hN2, hP2, fanoutPriority_normal, fanoutNormal_priority]
    exact ⟨rfl, rfl, rfl, rfl⟩
  · rw [if_neg hne] at h1 h2
    rw [h1, h2, hN2, hP2, fanoutPriority_normal, fanoutNormal_priority]
    exact ⟨rfl, rfl, rfl, rfl⟩

/-- Witness for the amended C4 at the fixture buses. -/
theorem C4_discipline_mismatch_witness :
    (busW.publishWithPriority 2 "t" ["int"]).error = some .taskModelMismatch ∧
    (busW.publishWithPriority 2 "t" ["int"]).submitted = [] ∧
    (busWP.publish "t" ["int"]).error = some .taskModelMismatch ∧
    (busWP.publish "t" ["int"]).submitted = [] :=
  C4_discipline_mismatch busW busWP 2 "t" ["int"] wsW [⟨1, ["int"], none⟩]
    rfl rfl (by decide) (by decide) rfl rfl (by decide) (by decide)
/-! ### Claim C5 -/

/-- A configuration violating the claimed invariants (`thread_min = 0`
and an UNDEFINED thread model), built the way the repository's own
tests build configurations: default constructor plus field assignment,
a path on which `validate` never runs. -/
def cfgUndef : EventBusConfig :=
  { thread_model := ThreadModelUNDEFINED, task_model := TaskModelNORMAL,
    thread_min := 0, thread_max := 0, task_max := 0 }

/-- The bus state `initEventBus` produces from `cfgUndef`: marked
initialized, but with no thread pool. -/
def busUndefInit : EventBus :=
  { callbacks_map := [], next_id := 0, init_status := true,
    task_model := TaskModelNORMAL, thread_pool := none, next_handle := 0 }

/-- C5 counterexample: `initEventBus` on a configuration with
`thread_min = 0` and an UNDEFINED thread model throws nothing — it
returns normally, marks the bus initialized, and leaves no pool —
refuting the claim that initialization fails with
`EventBusConfigurationException` on every invariant violation. -/
theorem C5_counterexample :
    cfgUndef.thread_min = 0 ∧ cfgUndef.thread_model = ThreadModelUNDEFINED ∧
    EventBus.empty.initEventBus cfgUndef = .ok busUndefInit ∧
    busUndefInit.init_status = true ∧ busUndefInit.thread_pool = none := by
  exact ⟨rfl, rfl, rfl, rfl, rfl⟩

/-- C5 amended: validation is split between the two construction
paths. `initEventBus` itself throws `EventBusConfigurationException`
exactly when the thread model is DYNAMIC or FIXED and the task model is
neither NORMAL nor PRIORITY; the 5-argument `EventBusConfig`
constructor throws exactly when `thread_min = 0`, `thread_max = 0`,
`thread_min > thread_max`, or the thread model is UNDEFINED; in every
other case `initEventBus` succeeds and marks the bus initialized, and
when the thread model is neither DYNAMIC nor FIXED it does so without
touching the pool. -/
theorem C5_init_validation (bus : EventBus) (cfg : EventBusConfig) :
    (bus.initEventBus cfg = .error .configurationError ↔
       ((cfg.thread_model = ThreadModelDYNAMIC ∨ cfg.thread_model = ThreadModelFIXED) ∧
        cfg.task_model ≠ TaskModelNORMAL ∧ cfg.task_model ≠ TaskModelPRIORITY)) ∧
    (EventBusConfig.mk5 cfg.thread_model cfg.task_model cfg.thread_min cfg.thread_max
        cfg.task_max = .error .configurationError ↔
       (cfg.thread_min = 0 ∨ cfg.thread_max = 0 ∨ cfg.thread_max < cfg.thread_min ∨
        cfg.thread_model = ThreadModelUNDEFINED)) ∧
    (¬((cfg.thread_model = ThreadModelDYNAMIC ∨ cfg.thread_model = ThreadModelFIXED) ∧
        cfg.task_model ≠ TaskModelNORMAL ∧ cfg.task_model ≠ TaskModelPRIORITY) →
       ∃ b, bus.initEventBus cfg = .ok b ∧ b.init_status = true ∧
            b.task_model = cfg.task_model) ∧
    (cfg.thread_model ≠ ThreadModelDYNAMIC → cfg.thread_model ≠ ThreadModelFIXED →
       bus.initEventBus cfg =
         .ok { bus with init_status := true, task_model := cfg.task_model }) := by
  have hfall : cfg.thread_model ≠ ThreadModelDYNAMIC →
      cfg.thread_model ≠ ThreadModelFIXED →
      bus.initEventBus cfg =
        .ok { bus with init_status := true, task_model := cfg.task_model } := by
    intro h1 h2
    unfold EventBus.initEventBus
    rw [if_neg h1, if_neg h2]
  refine ⟨?_, ?_, ?_, hfall⟩
  · by_cases h1 : cfg.thread_model = ThreadModelDYNAMIC
    · by_cases h3 : cfg.task_model = TaskModelNORMAL
      · have hval : bus.initEventBus cfg = .ok { bus with
            thread_pool := some ⟨cfg.thread_min, cfg.thread_max, cfg.task_max,
                                 ThreadPoolTypeNORMAL, true⟩,
            init_status := true, task_model := cfg.task_model } := by
          unfold EventBus.initEventBus
          rw [if_pos h1, if_pos h3]
        rw [hval]
        simp [h3]
      · by_cases h4 : cfg.task_model = TaskModelPRIORITY
        · have hval : bus.initEventBus cfg = .ok { bus with
              thread_pool := some ⟨cfg.thread_min, cfg.thread_max, cfg.task_max,
                                   ThreadPoolTypePRIORITY, true⟩,
              init_status := true, task_model := cfg.task_model } := by
            unfold EventBus.initEventBus
            rw [if_pos h1, if_neg h3, if_pos h4]
          rw [hval]
          simp [h4]
        · have hval : bus.initEventBus cfg = .error .configurationError := by
            unfold EventBus.initEventBus
            rw [if_pos h1, if_neg h3, if_neg h4]
          rw [hval]
          simp [h1, h3, h4]
    · by_cases h2 : cfg.thread_model = ThreadModelFIXED
      · by_cases h3 : cfg.task_model = TaskModelNORMAL
        · have hval : bus.initEventBus cfg = .ok { bus with
              thread_pool := some ⟨cfg.thread_min, cfg.thread_min, cfg.task_max,
                                   ThreadPoolTypeNORMAL, false⟩,
              init_status := true, task_model := cfg.task_model } := by
            unfold EventBus.initEventBus
            rw [if_neg h1, if_pos h2, if_pos h3]
          rw [hval]
          simp [h3]
        · by_cases h4 : cfg.task_model = TaskModelPRIORITY
          · have hval : bus.initEventBus cfg = .ok { bus with
                thread_pool := some ⟨cfg.thread_min, cfg.thread_min, cfg.task_max,
                                     ThreadPoolTypePRIORITY, false⟩,
                init_status := true, task_model := cfg.task_model } := by
              unfold EventBus.initEventBus
              rw [if_neg h1, if_pos h2, if_neg h3, if_pos h4]
            rw [hval]
            simp [h4]
          · have hval : bus.initEventBus cfg = .error .configurationError := by
              unfold EventBus.initEventBus
              rw [if_neg h1, if_pos h2, if_neg h3, if_neg h4]
            rw [hval]
            simp [h2, h3, h4]
      · rw [hfall h1 h2]
        simp [h1, h2]
  · simp only [EventBusConfig.mk5, EventBusConfig.validateErr]
    by_cases h1 : cfg.thread_min ≤ 0
    · rw [if_pos h1]
      constructor
      · intro _
        exact Or.inl (by omega)
      · intro _
        rfl
    · rw [if_neg h1]
      by_cases h2 : cfg.thread_max ≤ 0
      · rw [if_pos h2]
        constructor
        · intro _
          exact Or.inr (Or.inl (by omega))
        · intro _
          rfl
      · rw [if_neg h2]
        by_cases h3 : cfg.thread_min > cfg.thread_max
        · rw [if_pos h3]
          constructor
          · intro _
            exact Or.inr (Or.inr (Or.inl (by omega)))
          · intro _
            rfl
        · rw [if_neg h3]
          by_cases h4 : cfg.thread_model = ThreadModelUNDEFINED
          · rw [if_pos h4]
            constructor
            · intro _
              exact Or.inr (Or.inr (Or.inr h4))
            · intro _
              rfl
          · rw [if_neg h4]
            constructor
            · intro h
              exact absurd h (by simp)
            · intro h
              rcases h with h | h | h | h
              · exact absurd h (by omega)
              · exact absurd h (by omega)
              · exact absurd h (by omega)
              · exact absurd h h4
  · intro hnot
    by_cases h1 : cfg.thread_model = ThreadModelDYNAMIC
    · by_cases h3 : cfg.task_model = TaskModelNORMAL
      · have hval : bus.initEventBus cfg = .ok { bus with
            thread_pool := some ⟨cfg.thread_min, cfg.thread_max, cfg.task_max,
                                 ThreadPoolTypeNORMAL, true⟩,
            init_status := true, task_model := cfg.task_model } := by
          unfold EventBus.initEventBus
          rw [if_pos h1, if_pos h3]
        exact ⟨_, hval, rfl, rfl⟩
      · have h4 : cfg.task_model = TaskModelPRIORITY := by
          by_contra h4
          exact hnot ⟨Or.inl h1, h3, h4⟩
        have hval : bus.initEventBus cfg = .ok { bus with
            thread_pool := some ⟨cfg.thread_min, cfg.thread_max, cfg.task_max,
                                 ThreadPoolTypePRIORITY, true⟩,
            init_status := true, task_model := cfg.task_model } := by
          unfold EventBus.initEventBus
          rw [if_pos h1, if_neg h3, if_pos h4]
        exact ⟨_, hval, rfl, rfl⟩
    · by_cases h2 : cfg.thread_model = ThreadModelFIXED
      · by_cases h3 : cfg.task_model = TaskModelNORMAL
        · have hval : bus.initEventBus cfg = .ok { bus with
              thread_pool := some ⟨cfg.thread_min, cfg.thread_min, cfg.task_max,
                                   ThreadPoolTypeNORMAL, false⟩,
              init_status := true, task_model := cfg.task_model } := by
            unfold EventBus.initEventBus
            rw [if_neg h1, if_pos h2, if_pos h3]
          exact ⟨_, hval, rfl, rfl⟩
        · have h4 : cfg.task_model = TaskModelPRIORITY := by
            by_contra h4
            exact hnot ⟨Or.inr h2, h3, h4⟩
          have hval : bus.initEventBus cfg = .ok { bus with
              thread_pool := some ⟨cfg.thread_min, cfg.thread_min, cfg.task_max,
                                   ThreadPoolTypePRIORITY, false⟩,
              init_status := true, task_model := cfg.task_model } := by
            unfold EventBus.initEventBus
            rw [if_neg h1, if_pos h2, if_neg h3, if_pos h4]
          exact ⟨_, hval, rfl, rfl⟩
      · exact ⟨_, hfall h1 h2, rfl, rfl⟩

/-- Witness for the amended C5 at the field-assigned invalid
configuration: `initEventBus` silently succeeds while the validating
constructor would have thrown. -/
theorem C5_init_validation_witness :
    EventBus.empty.initEventBus cfgUndef =
      .ok { EventBus.empty with init_status := true, task_model := cfgUndef.task_model } ∧
    EventBusConfig.mk5 cfgUndef.thread_model cfgUndef.task_model cfgUndef.thread_min
      cfgUndef.thread_max cfgUndef.task_max = .error .configurationError :=
  ⟨(C5_init_validation EventBus.empty cfgUndef).2.2.2 (by decide) (by decide),
   (C5_init_validation EventBus.empty cfgUndef).2.1.mpr (Or.inl rfl)⟩

/-! ### Claim C7 -/

/-- One queue operation preserves the capacity and the occupancy
bound. -/
theorem stepQ_inv (q : ThreadQueue) (op : QOp)
    (h : q.task_queue.length ≤ q.capacity) :
    (q.stepQ op).task_queue.length ≤ (q.stepQ op).capacity ∧
    (q.stepQ op).capacity = q.capacity := by
  cases op with
  | add t =>
    by_cases hfull : q.task_queue.length ≥ q.capacity
    · have hstep : q.stepQ (.add t) = q := by
        show (match q.addTask t with | .ok q' => q' | .error _ => q) = q
        unfold ThreadQueue.addTask
        rw [if_pos hfull]
      rw [hstep]
      exact ⟨h, rfl⟩
    · have hstep : q.stepQ (.add t) = { q with task_queue := q.task_queue ++ [t] } := by
        show (match q.addTask t with | .ok q' => q' | .error _ => q) =
          { q with task_queue := q.task_queue ++ [t] }
        unfold ThreadQueue.addTask
        rw [if_neg hfull]
      rw [hstep]
      refine ⟨?_, rfl⟩
      show (q.task_queue ++ [t]).length ≤ q.capacity
      simp only [List.length_append, List.length_cons, List.length_nil]
      omega
  | get =>
    cases hq : q.task_queue with
    | nil =>
      have hstep : q.stepQ .get = q := by
        show (match q.getTask with | .ok (_, q') => q' | .error _ => q) = q
        unfold ThreadQueue.getTask
        rw [hq]
      rw [hstep]
      exact ⟨h, rfl⟩
    | cons t rest =>
      have hstep : q.stepQ .get = { q with task_queue := rest } := by
        show (match q.getTask with | .ok (_, q') => q' | .error _ => q) =
          { q with task_queue := rest }
        unfold ThreadQueue.getTask
        rw [hq]
      rw [hstep]
      refine ⟨?_, rfl⟩
      show rest.length ≤ q.capacity
      have : q.task_queue.length = rest.length + 1 := by rw [hq]; rfl
      omega

/-- Any sequence of queue operations keeps the occupancy within the
capacity, which never changes. -/
theorem runQ_inv (q : ThreadQueue) (ops : List QOp)
    (h : q.task_queue.length ≤ q.capacity) :
    (q.runQ ops).task_queue.length ≤ q.capacity ∧
    (q.runQ ops).capacity = q.capacity := by
  induction ops generalizing q with
  | nil => exact ⟨h, rfl⟩
  | cons op rest ih =>
    obtain ⟨h1, h2⟩ := stepQ_inv q op h
    obtain ⟨ha, hb⟩ := ih (q.stepQ op) h1
    exact ⟨le_of_le_of_eq ha h2, hb.trans h2⟩

/-- C7: on any reachable queue state (occupancy at most the capacity),
`addTask` throws the queue-full error exactly when occupancy equals the
capacity; a throwing `addTask` leaves the queue unchanged; and no
sequence of enqueue/dequeue operations ever pushes the occupancy above
the capacity. -/
theorem C7_queue_bound (q : ThreadQueue) (hlen : q.task_queue.length ≤ q.capacity) :
    (∀ t, (q.addTask t = .error .queueFull ↔ q.task_queue.length = q.capacity)) ∧
    (∀ t, q.addTask t = .error .queueFull → q.stepQ (.add t) = q) ∧
    (∀ ops, (q.runQ ops).task_queue.length ≤ q.capacity ∧
            (q.runQ ops).capacity = q.capacity) := by
  refine ⟨?_, ?_, fun ops => runQ_inv q ops hlen⟩
  · intro t
    unfold ThreadQueue.addTask
    by_cases hfull : q.task_queue.length ≥ q.capacity
    · rw [if_pos hfull]
      constructor
      · intro _
        omega
      · intro _
        rfl
    · rw [if_neg hfull]
      constructor
      · intro hc
        exact absurd hc (by simp)
      · intro hc
        exact absurd hc (by omega)
  · intro t herr
    show (match q.addTask t with | .ok q' => q' | .error _ => q) = q
    rw [herr]

/-- Witness for C7: a queue of capacity 2 at occupancy 2 rejects an
enqueue, and a mixed operation sequence never exceeds the bound. -/
theorem C7_queue_bound_witness :
    (ThreadQueue.mk [1, 2] 2).addTask 3 = .error .queueFull ∧
    ((ThreadQueue.mk [1, 2] 2).runQ [.add 3, .get, .add 4, .add 5]).task_queue.length ≤ 2 := by
  have h := C7_queue_bound ⟨[1, 2], 2⟩ (by decide)
  exact ⟨(h.1 3).mpr rfl, (h.2.2 [.add 3, .get, .add 4, .add 5]).1⟩
/-! ### Unfolding equations for the registry operations -/

/-- `unsubscribe` on an uninitialized bus throws. -/
theorem unsubscribe_eq_notInit (bus : EventBus) (n : String) (i : Nat)
    (h : bus.init_status = false) :
    bus.unsubscribe n i = .error .notInitialized := by
  unfold EventBus.unsubscribe
  rw [if_pos h]

/-- `unsubscribe` on an unknown topic returns `false`. -/
theorem unsubscribe_eq_noTopic (bus : EventBus) (n : String) (i : Nat)
    (h : bus.init_status = true)
    (hlook : lookupEntry n bus.callbacks_map = none) :
    bus.unsubscribe n i = .ok (bus, false) := by
  unfold EventBus.unsubscribe
  rw [if_neg (by simp [h]), hlook]

/-- `unsubscribe` with a matching id erases the first match in the
topic's entry and returns `true`. -/
theorem unsubscribe_eq_found (bus : EventBus) (n : String) (i : Nat)
    (ws : List CallbackWrapper) (h : bus.init_status = true)
    (hlook : lookupEntry n bus.callbacks_map = some ws)
    (hany : ws.any (fun w => w.id = i) = true) :
    bus.unsubscribe n i =
      .ok ({ bus with callbacks_map := bus.callbacks_map.map fun kv =>
             (kv.1, if kv.1 = n then eraseFirstId i kv.2 else kv.2) }, true) := by
  unfold EventBus.unsubscribe
  rw [if_neg (by simp [h]), hlook]
  simp [hany]

/-- `unsubscribe` with no matching id returns `false` and changes
nothing. -/
theorem unsubscribe_eq_notFound (bus : EventBus) (n : String) (i : Nat)
    (ws : List CallbackWrapper) (h : bus.init_status = true)
    (hlook : lookupEntry n bus.callbacks_map = some ws)
    (hany : ws.any (fun w => w.id = i) = false) :
    bus.unsubscribe n i = .ok (bus, false) := by
  unfold EventBus.unsubscribe
  rw [if_neg (by simp [h]), hlook]
  simp [hany]

/-! ### Claim C6 -/

/-- `tryRegisterEvent` never touches the ID counter. -/
theorem tryRegisterEvent_next_id (bus : EventBus) (n : String) (b : EventBus)
    (h : bus.tryRegisterEvent n = .ok b) : b.next_id = bus.next_id := by
  unfold EventBus.tryRegisterEvent at h
  by_cases h1 : bus.init_status = false
  · rw [if_pos h1] at h
    simp at h
  · rw [if_neg h1] at h
    by_cases h2 : (lookupEntry n bus.callbacks_map).isSome
    · rw [if_pos h2] at h
      obtain rfl : bus = b := by injection h
      rfl
    · rw [if_neg h2] at h
      injection h with hb
      rw [← hb]

/-- A successful `subscribeF` returns `next_id + 1` and advances the
counter to exactly that value. -/
theorem subscribeF_spec (bus : EventBus) (n : String) (s : List String)
    (k : Option ExcKind) (b : EventBus) (i : Nat)
    (h : bus.subscribeF n s k = .ok (b, i)) :
    i = bus.next_id + 1 ∧ b.next_id = bus.next_id + 1 := by
  unfold EventBus.subscribeF at h
  cases hlook : lookupEntry n bus.callbacks_map with
  | none =>
    rw [hlook] at h
    simp at h
  | some ws =>
    rw [hlook] at h
    injection h with hpair
    injection hpair with hb hi
    constructor
    · rw [← hi]
    · rw [← hb]

/-- The deduced-overload `subscribe` has the same counter behaviour. -/
theorem subscribeD_spec (bus : EventBus) (n : String) (s : List String)
    (k : Option ExcKind) (b : EventBus) (i : Nat)
    (h : bus.subscribeD n s k = .ok (b, i)) :
    i = bus.next_id + 1 ∧ b.next_id = bus.next_id + 1 := by
  unfold EventBus.subscribeD at h
  by_cases h1 : bus.init_status = false
  · rw [if_pos h1] at h
    simp at h
  · rw [if_neg h1] at h
    exact subscribeF_spec bus n s k b i h

/-- `subscribeSafe` has the same counter behaviour. -/
theorem subscribeSafe_spec (bus : EventBus) (n : String) (s : List String)
    (k : Option ExcKind) (b : EventBus) (i : Nat)
    (h : bus.subscribeSafe n s k = .ok (b, i)) :
    i = bus.next_id + 1 ∧ b.next_id = bus.next_id + 1 := by
  unfold EventBus.subscribeSafe at h
  cases hreg : bus.tryRegisterEvent n with
  | error e =>
    rw [hreg] at h
    simp at h
  | ok b1 =>
    rw [hreg] at h
    have hn := tryRegisterEvent_next_id bus n b1 hreg
    have hs := subscribeF_spec b1 n s k b i h
    rw [hn] at hs
    exact hs

/-- `unsubscribe` never touches the ID counter. -/
theorem unsubscribe_next_id (bus : EventBus) (n : String) (i : Nat)
    (b : EventBus) (r : Bool) (h : bus.unsubscribe n i = .ok (b, r)) :
    b.next_id = bus.next_id := by
  by_cases h1 : bus.init_status = false
  · rw [unsubscribe_eq_notInit bus n i h1] at h
    simp at h
  · have h1' : bus.init_status = true := by simpa using h1
    cases hlook : lookupEntry n bus.callbacks_map with
    | none =>
      rw [unsubscribe_eq_noTopic bus n i h1' hlook] at h
      injection h with hp
      injection hp with hb _
      rw [← hb]
    | some ws =>
      cases hany : ws.any (fun w => w.id = i) with
      | true =>
        rw [unsubscribe_eq_found bus n i ws h1' hlook hany] at h
        injection h with hp
        injection hp with hb _
        rw [← hb]
      | false =>
        rw [unsubscribe_eq_notFound bus n i ws h1' hlook hany] at h
        injection h with hp
        injection hp with hb _
        rw [← hb]

/-- One registry request either issues no ID and keeps the counter, or
issues exactly `next_id + 1` and advances the counter to it. -/
theorem stepOp_spec (bus : EventBus) (op : SubOp) :
    ((bus.stepOp op).2 = none ∧ (bus.stepOp op).1.next_id = bus.next_id) ∨
    ((bus.stepOp op).2 = some (bus.next_id + 1) ∧
     (bus.stepOp op).1.next_id = bus.next_id + 1) := by
  cases op with
  | register n =>
    left
    cases hreg : bus.tryRegisterEvent n with
    | ok b =>
      have hv : bus.stepOp (.register n) = (b, none) := by
        show (match bus.tryRegisterEvent n with
              | .ok b => (b, (none : Option Nat))
              | .error _ => (bus, none)) = (b, none)
        rw [hreg]
      rw [hv]
      exact ⟨rfl, tryRegisterEvent_next_id bus n b hreg⟩
    | error e =>
      have hv : bus.stepOp (.register n) = (bus, none) := by
        show (match bus.tryRegisterEvent n with
              | .ok b => (b, (none : Option Nat))
              | .error _ => (bus, none)) = (bus, none)
        rw [hreg]
      rw [hv]
      exact ⟨rfl, rfl⟩
  | subscribeF n s k =>
    cases hs : bus.subscribeF n s k with
    | ok pr =>
      right
      obtain ⟨b, i⟩ := pr
      obtain ⟨hi, hb⟩ := subscribeF_spec bus n s k b i hs
      have hv : bus.stepOp (.subscribeF n s k) = (b, some i) := by
        show (match bus.subscribeF n s k with
              | .ok (b, i) => (b, some i)
              | .error _ => (bus, none)) = (b, some i)
        rw [hs]
      rw [hv, hi]
      exact ⟨rfl, hb⟩
    | error e =>
      left
      have hv : bus.stepOp (.subscribeF n s k) = (bus, none) := by
        show (match bus.subscribeF n s k with
              | .ok (b, i) => (b, some i)
              | .error _ => (bus, none)) = (bus, none)
        rw [hs]
      rw [hv]
      exact ⟨rfl, rfl⟩
  | subscribeD n s k =>
    cases hs : bus.subscribeD n s k with
    | ok pr =>
      right
      obtain ⟨b, i⟩ := pr
      obtain ⟨hi, hb⟩ := subscribeD_spec bus n s k b i hs
      have hv : bus.stepOp (.subscribeD n s k) = (b, some i) := by
        show (match bus.subscribeD n s k with
              | .ok (b, i) => (b, some i)
              | .error _ => (bus, none)) = (b, some i)
        rw [hs]
      rw [hv, hi]
      exact ⟨rfl, hb⟩
    | error e =>
      left
      have hv : bus.stepOp (.subscribeD n s k) = (bus, none) := by
        show (match bus.subscribeD n s k with
              | .ok (b, i) => (b, some i)
              | .error _ => (bus, none)) = (bus, none)
        rw [hs]
      rw [hv]
      exact ⟨rfl, rfl⟩
  | subSafe n s k =>
    cases hs : bus.subscribeSafe n s k with
    | ok pr =>
      right
      obtain ⟨b, i⟩ := pr
      obtain ⟨hi, hb⟩ := subscribeSafe_spec bus n s k b i hs
      have hv : bus.stepOp (.subSafe n s k) = (b, some i) := by
        show (match bus.subscribeSafe n s k with
              | .ok (b, i) => (b, some i)
              | .error _ => (bus, none)) = (b, some i)
        rw [hs]
      rw [hv, hi]
      exact ⟨rfl, hb⟩
    | error e =>
      left
      have hv : bus.stepOp (.subSafe n s k) = (bus, none) := by
        show (match bus.subscribeSafe n s k with
              | .ok (b, i) => (b, some i)
              | .error _ => (bus, none)) = (bus, none)
        rw [hs]
      rw [hv]
      exact ⟨rfl, rfl⟩
  | unsub n i =>
    left
    cases hu : bus.unsubscribe n i with
    | ok pr =>
      obtain ⟨b, r⟩ := pr
      have hv : bus.stepOp (.unsub n i) = (b, none) := by
        show (match bus.unsubscribe n i with
              | .ok (b, _) => (b, (none : Option Nat))
              | .error _ => (bus, none)) = (b, none)
        rw [hu]
      rw [hv]
      exact ⟨rfl, unsubscribe_next_id bus n i b r hu⟩
    | error e =>
      have hv : bus.stepOp (.unsub n i) = (bus, none) := by
        show (match bus.unsubscribe n i with
              | .ok (b, _) => (b, (none : Option Nat))
              | .error _ => (bus, none)) = (bus, none)
        rw [hu]
      rw [hv]
      exact ⟨rfl, rfl⟩

/-- Across any request sequence, the counter never decreases and every
issued ID lies strictly between the starting counter and the final
counter, in strictly increasing order. -/
theorem runOps_spec (bus : EventBus) (ops : List SubOp) :
    bus.next_id ≤ (bus.runOps ops).1.next_id ∧
    (∀ i ∈ (bus.runOps ops).2, bus.next_id < i ∧ i ≤ (bus.runOps ops).1.next_id) ∧
    List.Chain' (· < ·) (bus.runOps ops).2 := by
  induction ops generalizing bus with
  | nil => exact ⟨le_refl _, by simp [EventBus.runOps], List.chain'_nil⟩
  | cons op rest ih =>
    obtain ⟨ha, hb, hc⟩ := ih (bus.stepOp op).1
    have hrun : bus.runOps (op :: rest) =
        (((bus.stepOp op).1.runOps rest).1,
         (bus.stepOp op).2.toList ++ ((bus.stepOp op).1.runOps rest).2) := rfl
    rcases stepOp_spec bus op with ⟨h1, h2⟩ | ⟨h1, h2⟩
    · rw [hrun, h1]
      simp only [Option.toList_none, List.nil_append]
      rw [h2] at ha hb
      exact ⟨ha, hb, hc⟩
    · rw [hrun, h1]
      simp only [Option.toList_some, List.singleton_append]
      rw [h2] at ha hb
      refine ⟨?_, ?_, ?_⟩
      · omega
      · intro i hi
        rcases List.mem_cons.mp hi with rfl | hi'
        · exact ⟨Nat.lt_succ_self _, ha⟩
        · obtain ⟨hgt, hle⟩ := hb i hi'
          exact ⟨by omega, hle⟩
      · rw [List.chain'_cons']
        refine ⟨?_, hc⟩
        intro y hy
        have hymem : y ∈ ((bus.stepOp op).1.runOps rest).2 := List.mem_of_mem_head? hy
        exact (hb y hymem).1

/-- C6: across any sequence of register/subscribe/subscribeSafe/
unsubscribe requests on one bus, the issued subscription IDs come from
a single shared counter: they strictly increase in call order, are
pairwise distinct, all exceed the starting counter value, and 0 is
never issued. -/
theorem C6_subscription_ids (bus : EventBus) (ops : List SubOp) :
    List.Chain' (· < ·) (bus.runOps ops).2 ∧
    List.Pairwise (· ≠ ·) (bus.runOps ops).2 ∧
    (∀ i ∈ (bus.runOps ops).2, bus.next_id < i) ∧
    (∀ i ∈ (bus.runOps ops).2, i ≠ 0) := by
  obtain ⟨_, hb, hc⟩ := runOps_spec bus ops
  refine ⟨hc, ?_, fun i hi => (hb i hi).1, fun i hi => ?_⟩
  · have hp : List.Pairwise (· < ·) (bus.runOps ops).2 :=
      List.chain'_iff_pairwise.mp hc
    exact hp.imp Nat.ne_of_lt
  · have := (hb i hi).1
    omega

/-! ### Claim C8 -/

/-- `subscribeF` on a registered topic appends exactly one record and
returns the fresh ID. -/
theorem subscribeF_eq_found (bus : EventBus) (n : String) (s : List String)
    (k : Option ExcKind) (ws : List CallbackWrapper)
    (hlook : lookupEntry n bus.callbacks_map = some ws) :
    bus.subscribeF n s k =
      .ok ({ bus with
             next_id := bus.next_id + 1,
             callbacks_map := bus.callbacks_map.map fun kv =>
               (kv.1, if kv.1 = n then kv.2 ++ [⟨bus.next_id + 1, s, k⟩] else kv.2) },
           bus.next_id + 1) := by
  unfold EventBus.subscribeF
  rw [hlook]

/-- C8 counterexample: on an uninitialized bus the `std::function`
overload of `subscribe` throws `EventNotRegisteredException`, not
`EventBusNotInitializedException` — it performs no initialization
check, and before `initEventBus` no topic can exist. -/
theorem C8_counterexample :
    EventBus.empty.init_status = false ∧
    EventBus.empty.subscribeF "t" [] none = .error .eventNotRegistered ∧
    EventBus.empty.subscribeF "t" [] none ≠ .error .notInitialized := by
  refine ⟨rfl, rfl, fun h => ?_⟩
  have h' : (Except.error EvError.eventNotRegistered : Except EvError (EventBus × Nat)) =
      .error .notInitialized := h
  injection h' with h''
  cases h''

/-- C8 amended: the deduced overload checks initialization first and
throws `EventBusNotInitializedException` on an uninitialized bus,
otherwise behaving exactly like the `std::function` overload, which
itself throws `EventNotRegisteredException` whenever the topic is
absent from the registry and on success appends exactly one handler
record to that topic's entry — all other topics untouched — returning
the new ID. -/
theorem C8_subscribe_errors (bus : EventBus) (name : String) (sig : List String)
    (tk : Option ExcKind) :
    (bus.init_status = false → bus.subscribeD name sig tk = .error .notInitialized) ∧
    (lookupEntry name bus.callbacks_map = none →
       bus.subscribeF name sig tk = .error .eventNotRegistered) ∧
    (bus.init_status = true → bus.subscribeD name sig tk = bus.subscribeF name sig tk) ∧
    (∀ ws, lookupEntry name bus.callbacks_map = some ws →
       ∃ b, bus.subscribeF name sig tk = .ok (b, bus.next_id + 1) ∧
         lookupEntry name b.callbacks_map =
           some (ws ++ [⟨bus.next_id + 1, sig, tk⟩]) ∧
         (∀ n', n' ≠ name →
            lookupEntry n' b.callbacks_map = lookupEntry n' bus.callbacks_map) ∧
         b.next_id = bus.next_id + 1) := by
  refine ⟨?_, ?_, ?_, ?_⟩
  · intro h
    unfold EventBus.subscribeD
    rw [if_pos h]
  · intro h
    unfold EventBus.subscribeF
    rw [h]
  · intro h
    unfold EventBus.subscribeD
    rw [if_neg (by simp [h])]
  · intro ws hlook
    refine ⟨_, subscribeF_eq_found bus name sig tk ws hlook, ?_, ?_, ?_⟩
    · have hl := lookup_map_entry (fun l => l ++ [⟨bus.next_id + 1, sig, tk⟩])
        name name bus.callbacks_map
      rw [if_pos rfl] at hl
      show lookupEntry name (bus.callbacks_map.map fun kv =>
          (kv.1, if kv.1 = name then kv.2 ++ [⟨bus.next_id + 1, sig, tk⟩] else kv.2)) = _
      rw [hl, hlook]
      rfl
    · intro n' hne
      have hl := lookup_map_entry (fun l => l ++ [⟨bus.next_id + 1, sig, tk⟩])
        name n' bus.callbacks_map
      rw [if_neg hne] at hl
      exact hl
    · rfl

/-- Witness for the amended C8 at the fixture bus: subscribing to the
registered topic "t" appends one record with ID 4. -/
theorem C8_subscribe_errors_witness :
    ∃ b, busW.subscribeF "t" ["bool"] none = .ok (b, busW.next_id + 1) ∧
      lookupEntry "t" b.callbacks_map =
        some (wsW ++ [⟨busW.next_id + 1, ["bool"], none⟩]) ∧
      (∀ n', n' ≠ "t" →
         lookupEntry n' b.callbacks_map = lookupEntry n' busW.callbacks_map) ∧
      b.next_id = busW.next_id + 1 :=
  (C8_subscribe_errors busW "t" ["bool"] none).2.2.2 wsW (by decide)

/-! ### Claim C9 -/

/-- C9: on an initialized bus, `unsubscribe` returns `true` exactly
when a record with the given ID is present in the topic's entry, in
which case precisely the first matching record is removed (the records
before and after it survive unchanged, and one record disappears)
while every other topic's entry is untouched; for an unknown topic or
an unknown ID it returns `false` with no error and no change. -/
theorem C9_unsubscribe (bus : EventBus) (name : String) (i : Nat)
    (hinit : bus.init_status = true) :
    (lookupEntry name bus.callbacks_map = none →
       bus.unsubscribe name i = .ok (bus, false)) ∧
    (∀ ws, lookupEntry name bus.callbacks_map = some ws →
       ws.any (fun w => w.id = i) = false →
       bus.unsubscribe name i = .ok (bus, false)) ∧
    (∀ ws, lookupEntry name bus.callbacks_map = some ws →
       ws.any (fun w => w.id = i) = true →
       ∃ b, bus.unsubscribe name i = .ok (b, true) ∧
         lookupEntry name b.callbacks_map = some (eraseFirstId i ws) ∧
         (∀ n', n' ≠ name →
            lookupEntry n' b.callbacks_map = lookupEntry n' bus.callbacks_map) ∧
         (eraseFirstId i ws).length + 1 = ws.length ∧
         ∃ l1 wrec l2, ws = l1 ++ wrec :: l2 ∧ wrec.id = i ∧
           (∀ w ∈ l1, w.id ≠ i) ∧ eraseFirstId i ws = l1 ++ l2) := by
  refine ⟨fun hlook => unsubscribe_eq_noTopic bus name i hinit hlook,
          fun ws hlook hany => unsubscribe_eq_notFound bus name i ws hinit hlook hany,
          fun ws hlook hany => ?_⟩
  refine ⟨_, unsubscribe_eq_found bus name i ws hinit hlook hany, ?_, ?_,
          eraseFirstId_length i ws hany, ?_⟩
  · have hl := lookup_map_entry (eraseFirstId i) name name bus.callbacks_map
    rw [if_pos rfl] at hl
    show lookupEntry name (bus.callbacks_map.map fun kv =>
        (kv.1, if kv.1 = name then eraseFirstId i kv.2 else kv.2)) = _
    rw [hl, hlook]
    rfl
  · intro n' hne
    have hl := lookup_map_entry (eraseFirstId i) name n' bus.callbacks_map
    rw [if_neg hne] at hl
    exact hl
  · apply eraseFirstId_split
    rcases List.any_eq_true.mp hany with ⟨w, hw, hwi⟩
    exact ⟨w, hw, by simpa using hwi⟩

/-- Witness for C9 at the fixture bus: removing ID 2 from topic "t"
succeeds and leaves the other two records. -/
theorem C9_unsubscribe_witness :
    ∃ b, busW.unsubscribe "t" 2 = .ok (b, true) ∧
      lookupEntry "t" b.callbacks_map = some (eraseFirstId 2 wsW) := by
  obtain ⟨b, h1, h2, _⟩ := (C9_unsubscribe busW "t" 2 rfl).2.2 wsW (by decide) (by decide)
  exact ⟨b, h1, h2⟩

/-- Witness for C6 at the fixture bus: a concrete request sequence
issues the IDs 4, 5, 6 — strictly increasing, above the starting
counter 3, and never 0. -/
theorem C6_subscription_ids_witness :
    List.Chain' (· < ·) (busW.runOps [.subSafe "v" [] none,
      .subscribeD "t" ["int"] none, .subscribeF "zz" [] none,
      .subSafe "v" ["int"] none]).2 ∧
    busW.next_id < 4 ∧ (4 : Nat) ≠ 0 := by
  have h := C6_subscription_ids busW [.subSafe "v" [] none,
    .subscribeD "t" ["int"] none, .subscribeF "zz" [] none,
    .subSafe "v" ["int"] none]
  exact ⟨h.1, h.2.2.1 4 (by decide), h.2.2.2 4 (by decide)⟩
